import Mathlib

/-!
Verification of the knowledge-base ingestion/search/RAG service
(`doc-embedding-api/app.py`) against its design specification.

The Python functions are shallowly embedded as executable Lean
definitions: `split_into_chunks`, `extract_frontmatter`,
`generate_point_id` (with a full MD5 implementation), the `/ingest`
delete and upsert paths, and the `/rag` endpoint.  External effects
(embedding model, vector index, LLM calls) are modelled as explicit
function arguments and event traces.
-/

/-! ## Chunker (`split_into_chunks`, app.py lines 116-129)

Python's `text.split()` splits on runs of whitespace and discards empty
pieces.  The `while` loop of `split_into_chunks` is embedded as the
fuelled loop `splitLoop`: one unit of fuel per loop iteration, `none`
meaning the iteration budget was exhausted (the faithful image of a
non-terminating loop, since the source has no guard on `overlap`).
The model uses natural subtraction in `start + chunk_size - overlap`,
which agrees with Python whenever `overlap ≤ start + chunk_size`. -/

/-- Worker for `pySplit`: scans the characters, accumulating the current
word in reverse; whitespace ends the current word, and empty pieces are
never produced. -/
def splitWs : List Char → List Char → List String
  | [], cur => if cur = [] then [] else [String.mk cur.reverse]
  | c :: rest, cur =>
    if c.isWhitespace then
      if cur = [] then splitWs rest []
      else String.mk cur.reverse :: splitWs rest []
    else splitWs rest (c :: cur)

/-- Python's `text.split()`: split on runs of whitespace, no empty words. -/
def pySplit (s : String) : List String :=
  splitWs s.toList []

/-- The word window of length `chunk_size` starting at word offset
`start`: Python's `words[start:start+chunk_size]`. -/
def windowW (chunk_size : Nat) (words : List String) (start : Nat) : List String :=
  (words.drop start).take chunk_size

/-- The `while start < len(words)` loop of `split_into_chunks`,
appending `words[start:end]` and advancing `start = end - overlap`,
breaking once `end >= len(words)`. -/
def splitLoop (chunk_size overlap : Nat) (words : List String) :
    Nat → Nat → List (List String) → Option (List (List String))
  | 0, _, _ => none
  | fuel + 1, start, acc =>
    if words.length ≤ start then some acc
    else
      let acc' := acc ++ [windowW chunk_size words start]
      if words.length ≤ start + chunk_size then some acc'
      else splitLoop chunk_size overlap words fuel (start + chunk_size - overlap) acc'

/-- `split_into_chunks` from app.py: one chunk for short texts, else the
word-window loop with the chunks rejoined by single spaces.  The fuel
`words.length` is sufficient whenever `overlap < chunk_size` (proved
below); `none` models the loop failing to finish. -/
def split_into_chunks (text : String) (chunk_size overlap : Nat) : Option (List String) :=
  let words := pySplit text
  if words.length ≤ chunk_size then some [text]
  else (splitLoop chunk_size overlap words words.length 0 []).map
    (fun ws => ws.map (String.intercalate " "))

/-- Main loop lemma: with `overlap < chunk_size` and enough fuel, the
loop succeeds and returns exactly the word windows at offsets
`start + i * (chunk_size - overlap)`; every window but the last ends
strictly before the end of the word list, and the last one reaches it. -/
theorem splitLoop_spec (cs ov : Nat) (words : List String) (hov : ov < cs) :
    ∀ fuel start acc, start < words.length → words.length - start ≤ fuel →
      ∃ k, 1 ≤ k ∧
        splitLoop cs ov words fuel start acc =
          some (acc ++ (List.range k).map (fun i => windowW cs words (start + i * (cs - ov)))) ∧
        (∀ i, i + 1 < k → start + i * (cs - ov) + cs < words.length) ∧
        words.length ≤ start + (k - 1) * (cs - ov) + cs := by
  intro fuel
  induction fuel with
  | zero => intro start acc h1 h2; omega
  | succ fuel ih =>
    intro start acc h1 h2
    by_cases hend : words.length ≤ start + cs
    · refine ⟨1, le_refl 1, ?_, ?_, ?_⟩
      · simp only [splitLoop, if_neg (by omega : ¬ words.length ≤ start), if_pos hend]
        simp [List.range_succ]
      · intro i hi; omega
      · simpa using hend
    · have hstep : start + cs - ov = start + (cs - ov) := by omega
      have h1' : start + (cs - ov) < words.length := by omega
      have h2' : words.length - (start + (cs - ov)) ≤ fuel := by omega
      obtain ⟨k, hk1, heq, hmid, hlast⟩ :=
        ih (start + (cs - ov)) (acc ++ [windowW cs words start]) h1' h2'
      refine ⟨k + 1, by omega, ?_, ?_, ?_⟩
      · simp only [splitLoop, if_neg (by omega : ¬ words.length ≤ start), if_neg hend]
        rw [hstep, heq, List.range_succ_eq_map, List.map_cons, List.map_map]
        have hfun : (fun i => windowW cs words (start + (cs - ov) + i * (cs - ov)))
            = ((fun i => windowW cs words (start + i * (cs - ov))) ∘ Nat.succ) := by
          funext i
          simp only [Function.comp_apply, Nat.succ_eq_add_one]
          congr 1
          ring
        rw [hfun]
        simp
      · intro i hi
        match i with
        | 0 => simpa using (by omega : start + cs < words.length)
        | j + 1 =>
          have := hmid j (by omega)
          have harith : start + (j + 1) * (cs - ov) = start + (cs - ov) + j * (cs - ov) := by ring
          omega
      · have harith : start + (cs - ov) + (k - 1) * (cs - ov) = start + k * (cs - ov) := by
          have h : k - 1 + 1 = k := by omega
          calc start + (cs - ov) + (k - 1) * (cs - ov)
              = start + (k - 1 + 1) * (cs - ov) := by ring
            _ = start + k * (cs - ov) := by rw [h]
        simpa [harith] using hlast

/-- Shape of the successful chunking of a long text: the chunk list is
exactly the space-joined word windows at offsets `i * (cs - ov)`, the
next-to-last windows end before the word list does, and the last one
covers its end. -/
theorem chunks_shape (text : String) (cs ov : Nat) (hov : ov < cs)
    (hbig : cs < (pySplit text).length) :
    ∃ k, 1 ≤ k ∧
      split_into_chunks text cs ov =
        some ((List.range k).map
          (fun i => String.intercalate " " (windowW cs (pySplit text) (i * (cs - ov))))) ∧
      (∀ i, i + 1 < k → i * (cs - ov) + cs < (pySplit text).length) ∧
      (pySplit text).length ≤ (k - 1) * (cs - ov) + cs := by
  obtain ⟨k, hk1, heq, hmid, hlast⟩ :=
    splitLoop_spec cs ov (pySplit text) hov (pySplit text).length 0 [] (by omega) (by omega)
  refine ⟨k, hk1, ?_, ?_, ?_⟩
  · simp only [split_into_chunks, if_neg (by omega : ¬ (pySplit text).length ≤ cs), heq]
    simp [List.map_map, Function.comp]
  · intro i hi
    have := hmid i hi
    omega
  · omega

/-- Helper: the word window starting at `s` has `min cs (n - s)` words. -/
theorem windowW_length (cs : Nat) (words : List String) (s : Nat) :
    (windowW cs words s).length = min cs (words.length - s) := by
  simp [windowW]

/-- C2: for a text of more than `chunk_size` words and `overlap <
chunk_size`, `split_into_chunks` returns the word windows whose `i`-th
member starts at word offset `i * (chunk_size - overlap)`, every window
has `chunk_size` words except possibly the last (never longer), the
window count is at most `ceil(word_count / (chunk_size - overlap))`,
and 1200 words with sizes 500/50 give three chunks at offsets 0, 450,
900, the last 300 words long. -/
theorem split_into_chunks_window_spec (text : String) (cs ov : Nat) (hov : ov < cs)
    (hbig : cs < (pySplit text).length) :
    (∃ k chunks, split_into_chunks text cs ov = some chunks ∧ chunks.length = k ∧
      (∀ i, i < k →
        chunks[i]? = some (String.intercalate " " (windowW cs (pySplit text) (i * (cs - ov))))) ∧
      (∀ i, i + 1 < k → (windowW cs (pySplit text) (i * (cs - ov))).length = cs) ∧
      (∀ i, (windowW cs (pySplit text) (i * (cs - ov))).length ≤ cs) ∧
      k ≤ ((pySplit text).length + (cs - ov) - 1) / (cs - ov)) ∧
    (∀ t2, (pySplit t2).length = 1200 →
      ∃ c2, split_into_chunks t2 500 50 = some c2 ∧ c2.length = 3 ∧
        (∀ j, j < 3 →
          c2[j]? = some (String.intercalate " " (windowW 500 (pySplit t2) (j * 450)))) ∧
        (windowW 500 (pySplit t2) 900).length = 300) := by
  constructor
  · obtain ⟨k, hk1, heq, hmid, hlast⟩ := chunks_shape text cs ov hov hbig
    refine ⟨k, _, heq, by simp, ?_, ?_, ?_, ?_⟩
    · intro i hi
      simp [List.getElem?_map, List.getElem?_range, hi]
    · intro i hi
      have := hmid i hi
      rw [windowW_length]
      omega
    · intro i
      rw [windowW_length]
      omega
    · have hd : 0 < cs - ov := by omega
      rcases Nat.lt_or_ge k 2 with hk2 | hk2
      · have hk : k = 1 := by omega
        subst hk
        rw [Nat.le_div_iff_mul_le hd]
        omega
      · have hA := hmid (k - 2) (by omega)
        rw [Nat.le_div_iff_mul_le hd]
        have e2 : k - 2 + 2 = k := by omega
        have e1 : (k - 2 + 2) * (cs - ov) = (k - 2) * (cs - ov) + 2 * (cs - ov) :=
          Nat.add_mul _ _ _
        rw [← e2, e1]
        omega
  · intro t2 ht2
    obtain ⟨k2, hk21, heq2, hmid2, hlast2⟩ :=
      chunks_shape t2 500 50 (by omega) (by omega)
    have hup : k2 ≤ 3 := by
      by_contra h
      have := hmid2 2 (by omega)
      omega
    have hlow : 3 ≤ k2 := by omega
    have hk2 : k2 = 3 := by omega
    subst hk2
    refine ⟨_, heq2, by simp, ?_, ?_⟩
    · intro j hj
      simp [List.getElem?_map, List.getElem?_range, hj]
    · rw [windowW_length, ht2]
      norm_num

/-- Witness for `split_into_chunks_window_spec` at the concrete text
`"a b c"` with `chunk_size = 2`, `overlap = 1`. -/
theorem split_into_chunks_window_spec_witness :
    (1 < 2 ∧ 2 < (pySplit "a b c").length) ∧
    ((∃ k chunks, split_into_chunks "a b c" 2 1 = some chunks ∧ chunks.length = k ∧
      (∀ i, i < k →
        chunks[i]? = some (String.intercalate " " (windowW 2 (pySplit "a b c") (i * (2 - 1))))) ∧
      (∀ i, i + 1 < k → (windowW 2 (pySplit "a b c") (i * (2 - 1))).length = 2) ∧
      (∀ i, (windowW 2 (pySplit "a b c") (i * (2 - 1))).length ≤ 2) ∧
      k ≤ ((pySplit "a b c").length + (2 - 1) - 1) / (2 - 1)) ∧
    (∀ t2, (pySplit t2).length = 1200 →
      ∃ c2, split_into_chunks t2 500 50 = some c2 ∧ c2.length = 3 ∧
        (∀ j, j < 3 →
          c2[j]? = some (String.intercalate " " (windowW 500 (pySplit t2) (j * 450)))) ∧
        (windowW 500 (pySplit t2) 900).length = 300)) :=
  ⟨⟨by norm_num, by decide⟩,
    split_into_chunks_window_spec "a b c" 2 1 (by norm_num) (by decide)⟩

/-- C9: a text whose whitespace-split word count is at most `chunk_size`
(the empty text included) is returned as one single chunk equal to the
original text, spacing untouched. -/
theorem split_into_chunks_single (text : String) (cs ov : Nat)
    (h : (pySplit text).length ≤ cs) :
    split_into_chunks text cs ov = some [text] := by
  simp [split_into_chunks, h]

/-- Witness for `split_into_chunks_single` on a two-word text with the
module's default sizes, checking the original double space survives. -/
theorem split_into_chunks_single_witness :
    (pySplit "hello  world").length ≤ 500 ∧
      split_into_chunks "hello  world" 500 50 = some ["hello  world"] :=
  ⟨by decide, split_into_chunks_single "hello  world" 500 50 (by decide)⟩

/-- Helper for the C3 counterexample: with `chunk_size = overlap = 2` on
a three-word list the loop start never advances (`start = end - overlap`
recomputes `start`), so no amount of fuel finishes the loop. -/
theorem splitLoop_stuck :
    ∀ fuel acc, splitLoop 2 2 ["a", "b", "c"] fuel 0 acc = none := by
  intro fuel
  induction fuel with
  | zero => intro acc; rfl
  | succ fuel ih => intro acc; exact ih _

/-- C3 counterexample: the source has no guard on `overlap ≥
chunk_size`; with `chunk_size = 2 = overlap` and the three-word text
`"a b c"` the loop never terminates (no fuel bound suffices), so
`split_into_chunks` is not total on all parameter choices. -/
theorem split_into_chunks_no_guard :
    split_into_chunks "a b c" 2 2 = none ∧
      ¬ ∃ fuel res, splitLoop 2 2 ["a", "b", "c"] fuel 0 [] = some res := by
  refine ⟨by decide, ?_⟩
  rintro ⟨fuel, res, h⟩
  rw [splitLoop_stuck fuel []] at h
  exact Option.noConfusion h

/-- C3 (amended): `split_into_chunks` terminates on every text whenever
`overlap < chunk_size` — which covers the module's only call site,
using the defaults 500/50 — with no guard in the code for the
complementary case. -/
theorem split_into_chunks_terminates (text : String) (cs ov : Nat) (hov : ov < cs) :
    ∃ chunks, split_into_chunks text cs ov = some chunks := by
  by_cases h : (pySplit text).length ≤ cs
  · exact ⟨[text], by simp [split_into_chunks, h]⟩
  · obtain ⟨k, _, heq, _, _⟩ := chunks_shape text cs ov hov (by omega)
    exact ⟨_, heq⟩

/-- Witness for `split_into_chunks_terminates` on a four-word text with
`chunk_size = 3`, `overlap = 1`. -/
theorem split_into_chunks_terminates_witness :
    1 < 3 ∧ ∃ chunks, split_into_chunks "a b c d" 3 1 = some chunks :=
  ⟨by norm_num, split_into_chunks_terminates "a b c d" 3 1 (by norm_num)⟩

/-! ## Frontmatter extractor (`extract_frontmatter`, app.py lines 103-114)

Python's `content.split('---', 2)` is embedded through `findSplit`,
which locates the first occurrence of a separator; applying it twice
yields the (at most three) parts.  `str.strip()` is `pyStrip`,
`str.split('\n')` is `splitLinesCh`, and the Python dict built by the
`key: value` loop is an insertion-ordered association list with
overwrite-in-place semantics (`dictInsert`). -/

/-- Find the first occurrence of `sep` in a character list, returning
the characters before it and the characters after it; `none` when `sep`
does not occur. -/
def findSplit (sep : List Char) : List Char → Option (List Char × List Char)
  | [] => none
  | c :: rest =>
    if sep.isPrefixOf (c :: rest) then some ([], (c :: rest).drop sep.length)
    else (findSplit sep rest).map (fun p => (c :: p.1, p.2))

/-- Python's `str.strip()`: drop whitespace from both ends. -/
def pyStrip (cs : List Char) : List Char :=
  ((cs.dropWhile Char.isWhitespace).reverse.dropWhile Char.isWhitespace).reverse

/-- Python's `str.split('\n')`: split at every newline, keeping empty
pieces. -/
def splitLinesCh : List Char → List Char → List (List Char)
  | [], cur => [cur.reverse]
  | c :: rest, cur =>
    if c = '\n' then cur.reverse :: splitLinesCh rest []
    else splitLinesCh rest (c :: cur)

/-- Python dict assignment `d[k] = v` on an insertion-ordered
association list: an existing key keeps its position and gets the new
value, a new key goes to the end. -/
def dictInsert : List (String × String) → String → String → List (String × String)
  | [], k, v => [(k, v)]
  | (k', v') :: rest, k, v =>
    if k' = k then (k, v) :: rest else (k', v') :: dictInsert rest k v

/-- One line of the frontmatter region: lines without a colon are
skipped; otherwise the first colon separates key from value and both
sides are stripped. -/
def parseFmLine (fm : List (String × String)) (line : List Char) : List (String × String) :=
  match findSplit [':'] line with
  | none => fm
  | some (k, v) => dictInsert fm (String.mk (pyStrip k)) (String.mk (pyStrip v))

/-- `extract_frontmatter` from app.py: if the text starts with `---` and
`---` occurs at least twice, parse the region between the first two
occurrences as `key: value` lines and return the stripped remainder as
the body; otherwise return the empty mapping and the text unchanged. -/
def extract_frontmatter (content : String) : List (String × String) × String :=
  let cs := content.toList
  let delim := ['-', '-', '-']
  if delim.isPrefixOf cs then
    match findSplit delim cs with
    | none => ([], content)
    | some (_, r1) =>
      match findSplit delim r1 with
      | none => ([], content)
      | some (p1, p2) =>
        ((splitLinesCh (pyStrip p1) []).foldl parseFmLine [], String.mk (pyStrip p2))
  else ([], content)

/-- Helper: when `sep` is a nonempty prefix of `cs`, the first
occurrence is at position 0. -/
theorem findSplit_of_prefix (sep cs : List Char) (hsep : sep ≠ [])
    (h : sep.isPrefixOf cs) : findSplit sep cs = some ([], cs.drop sep.length) := by
  match cs with
  | [] =>
    match sep, hsep with
    | c :: s, _ => simp [List.isPrefixOf] at h
  | c :: rest => simp [findSplit, h]

/-- C5: `extract_frontmatter` is total (it is a Lean function), returns
the empty mapping and the input unchanged when the text does not start
with the delimiter or the delimiter does not occur a second time, and
parses the region between the first two delimiters as trimmed
`key: value` lines otherwise; on the document
`"---\ntitle: X\n---\nBody text"` it yields the mapping `title ↦ X` and
the body `"Body text"`. -/
theorem extract_frontmatter_spec :
    (∀ content : String, ¬ (['-', '-', '-'].isPrefixOf content.toList : Bool) →
      extract_frontmatter content = ([], content)) ∧
    (∀ content : String, findSplit ['-', '-', '-'] (content.toList.drop 3) = none →
      extract_frontmatter content = ([], content)) ∧
    extract_frontmatter "---\ntitle: X\n---\nBody text" = ([("title", "X")], "Body text") := by
  refine ⟨?_, ?_, by decide⟩
  · intro content h
    simp only [extract_frontmatter]
    rw [if_neg (by simpa using h)]
  · intro content h
    by_cases hpre : (['-', '-', '-'].isPrefixOf content.toList : Bool)
    · simp only [extract_frontmatter]
      rw [if_pos (by simpa using hpre),
        findSplit_of_prefix _ _ (by simp) hpre]
      have h' : findSplit ['-', '-', '-'] (List.drop 3 content.data) = none := h
      simp [h']
    · simp only [extract_frontmatter]
      rw [if_neg (by simpa using hpre)]

/-- Witness for `extract_frontmatter_spec`: a text with no delimiter at
all and a text whose delimiter occurs only once are both returned
unchanged with an empty mapping. -/
theorem extract_frontmatter_spec_witness :
    extract_frontmatter "plain body" = ([], "plain body") ∧
      extract_frontmatter "---only one" = ([], "---only one") :=
  ⟨extract_frontmatter_spec.1 "plain body" (by decide),
    extract_frontmatter_spec.2.1 "---only one" (by decide)⟩

/-! ## Chunk identifier (`generate_point_id`, app.py lines 131-133)

The source computes `hashlib.md5(f"{repo}:{path}:chunk_{i}".encode()).hexdigest()`.
MD5 (RFC 1321) is implemented here in full over byte lists, with 32-bit
words as naturals reduced mod `2 ^ 32`, so concrete identifiers can be
computed inside proofs. -/

/-- UTF-8 encoding of a string (Python's `str.encode()`), bytes as
naturals. -/
def utf8Bytes (s : String) : List Nat :=
  s.toList.foldr (fun c acc =>
    let n := c.toNat
    (if n < 0x80 then [n]
     else if n < 0x800 then [0xC0 + n / 0x40, 0x80 + n % 0x40]
     else if n < 0x10000 then
       [0xE0 + n / 0x1000, 0x80 + n / 0x40 % 0x40, 0x80 + n % 0x40]
     else
       [0xF0 + n / 0x40000, 0x80 + n / 0x1000 % 0x40,
        0x80 + n / 0x40 % 0x40, 0x80 + n % 0x40]) ++ acc) []

/-- Rotate a 32-bit word left by `n` bits. -/
def rotl32 (x n : Nat) : Nat := x * 2 ^ n % 2 ^ 32 + x / 2 ^ (32 - n)

/-- The 64 MD5 sine-derived round constants (RFC 1321). -/
def md5K : List Nat :=
  [0xd76aa478, 0xe8c7b756, 0x242070db, 0xc1bdceee,
   0xf57c0faf, 0x4787c62a, 0xa8304613, 0xfd469501,
   0x698098d8, 0x8b44f7af, 0xffff5bb1, 0x895cd7be,
   0x6b901122, 0xfd987193, 0xa679438e, 0x49b40821,
   0xf61e2562, 0xc040b340, 0x265e5a51, 0xe9b6c7aa,
   0xd62f105d, 0x02441453, 0xd8a1e681, 0xe7d3fbc8,
   0x21e1cde6, 0xc33707d6, 0xf4d50d87, 0x455a14ed,
   0xa9e3e905, 0xfcefa3f8, 0x676f02d9, 0x8d2a4c8a,
   0xfffa3942, 0x8771f681, 0x6d9d6122, 0xfde5380c,
   0xa4beea44, 0x4bdecfa9, 0xf6bb4b60, 0xbebfbc70,
   0x289b7ec6, 0xeaa127fa, 0xd4ef3085, 0x04881d05,
   0xd9d4d039, 0xe6db99e5, 0x1fa27cf8, 0xc4ac5665,
   0xf4292244, 0x432aff97, 0xab9423a7, 0xfc93a039,
   0x655b59c3, 0x8f0ccc92, 0xffeff47d, 0x85845dd1,
   0x6fa87e4f, 0xfe2ce6e0, 0xa3014314, 0x4e0811a1,
   0xf7537e82, 0xbd3af235, 0x2ad7d2bb, 0xeb86d391]

/-- The per-round left-rotation amounts (RFC 1321). -/
def md5S : List Nat :=
  [7, 12, 17, 22, 7, 12, 17, 22, 7, 12, 17, 22, 7, 12, 17, 22,
   5, 9, 14, 20, 5, 9, 14, 20, 5, 9, 14, 20, 5, 9, 14, 20,
   4, 11, 16, 23, 4, 11, 16, 23, 4, 11, 16, 23, 4, 11, 16, 23,
   6, 10, 15, 21, 6, 10, 15, 21, 6, 10, 15, 21, 6, 10, 15, 21]

/-- The MD5 nonlinear mixing function for round `i`. -/
def md5F (i b c d : Nat) : Nat :=
  if i < 16 then Nat.lor (Nat.land b c) (Nat.land (Nat.xor b 0xffffffff) d)
  else if i < 32 then Nat.lor (Nat.land d b) (Nat.land (Nat.xor d 0xffffffff) c)
  else if i < 48 then Nat.xor (Nat.xor b c) d
  else Nat.xor c (Nat.lor b (Nat.xor d 0xffffffff))

/-- The message-word index schedule for round `i`. -/
def md5G (i : Nat) : Nat :=
  if i < 16 then i
  else if i < 32 then (5 * i + 1) % 16
  else if i < 48 then (3 * i + 5) % 16
  else 7 * i % 16

/-- Little-endian byte decomposition of a word. -/
def leBytes (w count : Nat) : List Nat :=
  (List.range count).map (fun i => w / 2 ^ (8 * i) % 256)

/-- The `g`-th little-endian 32-bit word of a 64-byte block. -/
def leWord (block : List Nat) (g : Nat) : Nat :=
  block.getD (4 * g) 0 + 256 * block.getD (4 * g + 1) 0 +
    65536 * block.getD (4 * g + 2) 0 + 16777216 * block.getD (4 * g + 3) 0

/-- MD5 padding: append `0x80`, zero-fill to 56 mod 64, then the
message bit length as a 64-bit little-endian quantity. -/
def md5Pad (msg : List Nat) : List Nat :=
  msg ++ [0x80] ++ List.replicate ((56 + 64 - (msg.length + 1) % 64) % 64) 0 ++
    leBytes (msg.length * 8 % 2 ^ 64) 8

/-- One MD5 round: mix, add the round constant and schedule word, and
rotate the quartet. -/
def md5Step (block : List Nat) (st : Nat × Nat × Nat × Nat) (i : Nat) :
    Nat × Nat × Nat × Nat :=
  let f := (md5F i st.2.1 st.2.2.1 st.2.2.2 + st.1 + md5K.getD i 0 +
    leWord block (md5G i)) % 2 ^ 32
  (st.2.2.2, (st.2.1 + rotl32 f (md5S.getD i 0)) % 2 ^ 32, st.2.1, st.2.2.1)

/-- Process one 64-byte block: 64 rounds, then add into the running
state. -/
def md5Block (st : Nat × Nat × Nat × Nat) (block : List Nat) :
    Nat × Nat × Nat × Nat :=
  let r := (List.range 64).foldl (md5Step block) st
  ((st.1 + r.1) % 2 ^ 32, (st.2.1 + r.2.1) % 2 ^ 32,
   (st.2.2.1 + r.2.2.1) % 2 ^ 32, (st.2.2.2 + r.2.2.2) % 2 ^ 32)

/-- Cut a (padded) byte list into 64-byte blocks; the fuel
`l.length` bounds the block count. -/
def chunks64 : Nat → List Nat → List (List Nat)
  | 0, _ => []
  | _, [] => []
  | n + 1, l => l.take 64 :: chunks64 n (l.drop 64)

/-- The 16-byte MD5 digest of a byte list. -/
def md5Bytes (msg : List Nat) : List Nat :=
  let padded := md5Pad msg
  let r := (chunks64 padded.length padded).foldl md5Block
    (0x67452301, 0xefcdab89, 0x98badcfe, 0x10325476)
  leBytes r.1 4 ++ leBytes r.2.1 4 ++ leBytes r.2.2.1 4 ++ leBytes r.2.2.2 4

/-- Lower-case hex character of a value below 16. -/
def hexChar (n : Nat) : Char := if n < 10 then Char.ofNat (48 + n) else Char.ofNat (87 + n)

/-- Lower-case hex string of a byte list (Python's `hexdigest()`). -/
def hexDigest (bytes : List Nat) : String :=
  String.mk (bytes.foldr (fun b acc => hexChar (b / 16) :: hexChar (b % 16) :: acc) [])

/-- The pre-hash string `f"{repo}:{path}:chunk_{chunk_index}"` of
`generate_point_id`. -/
def uniqueString (path repo : String) (chunk_index : Nat) : String :=
  repo ++ ":" ++ path ++ ":chunk_" ++ toString chunk_index

/-- `generate_point_id` from app.py: the MD5 hexdigest of the UTF-8
encoding of `f"{repo}:{path}:chunk_{chunk_index}"`. -/
def generate_point_id (path repo : String) (chunk_index : Nat) : String :=
  hexDigest (md5Bytes (utf8Bytes (uniqueString path repo chunk_index)))


/-- C4 counterexample: the three fields are joined with `:` without
escaping, so the two distinct triples `(path="b:c", repo="a", 0)` and
`(path="c", repo="a:b", 0)` produce the same pre-hash string
`"a:b:c:chunk_0"` and therefore identical identifiers with certainty —
not merely with hash-collision probability. -/
theorem generate_point_id_collision :
    generate_point_id "b:c" "a" 0 = generate_point_id "c" "a:b" 0 ∧
      ("b:c", "a", (0 : Nat)) ≠ ("c", "a:b", (0 : Nat)) := by
  constructor
  · have h : uniqueString "b:c" "a" 0 = uniqueString "c" "a:b" 0 := by decide
    simp only [generate_point_id, h]
  · decide

set_option maxRecDepth 100000 in
/-- C4 (amended): `generate_point_id` is a pure deterministic function
of the triple — the identifier depends only on the joined pre-hash
string, so equal strings (in particular equal triples) give equal
identifiers — and different chunk indices under one `(repo, path)` give
different identifiers (checked concretely through the full MD5
computation); only triples whose colon-joined strings coincide collide
with certainty. -/
theorem generate_point_id_det :
    (∀ p1 r1 i1 p2 r2 i2, uniqueString p1 r1 i1 = uniqueString p2 r2 i2 →
      generate_point_id p1 r1 i1 = generate_point_id p2 r2 i2) ∧
    generate_point_id "b" "a" 0 ≠ generate_point_id "b" "a" 1 := by
  constructor
  · intro p1 r1 i1 p2 r2 i2 h
    simp only [generate_point_id, h]
  · decide

/-- Witness for `generate_point_id_det`: applying the congruence half at
the concrete coinciding pre-hash strings of index 5. -/
theorem generate_point_id_det_witness :
    uniqueString "b:c" "a" 5 = uniqueString "c" "a:b" 5 ∧
      generate_point_id "b:c" "a" 5 = generate_point_id "c" "a:b" 5 :=
  ⟨by decide, generate_point_id_det.1 "b:c" "a" 5 "c" "a:b" 5 (by decide)⟩

/-! ## RAG endpoint (`rag_query`, app.py lines 373-476)

The request handler is embedded as a pure function of the request and
an environment carrying the external capabilities: which LLM clients
are configured, what the vector index returns for the embedded query,
and the two black-box LLM calls (system prompt and user prompt to
answer text).  The returned event trace records, in order, every
external effect the handler performs: embedding the query, querying the
index, and calling an LLM.  JSON responses are insertion-ordered
key/value lists so field presence can be stated; the float similarity
score is a pass-through value, modelled as an integer. -/

/-- Payload fields of one retrieved point, as read by `/rag`. -/
structure RetrievedPoint where
  title : String
  full_chunk : String
  path : String
  chunk_index : Nat
  total_chunks : Nat
  score : Int
deriving DecidableEq

/-- One external effect of the `/rag` handler. -/
inductive RagEvent where
  | embedQuery
  | indexQuery
  | llmCall (provider : String)
deriving DecidableEq

/-- The `/rag` request body (`RAGRequest` in app.py; defaults
`limit = 3`, `llm_provider = "groq"`). -/
structure RAGRequest where
  query : String
  limit : Nat := 3
  llm_provider : String := "groq"
deriving DecidableEq

/-- External context of one `/rag` request. -/
structure RagEnv where
  groqConfigured : Bool
  anthropicConfigured : Bool
  retrieved : List RetrievedPoint
  groqLlm : String → String → String
  claudeLlm : String → String → String

/-- An `HTTPException` raised by the handler. -/
structure HTTPError where
  status : Nat
  detail : String
deriving DecidableEq

/-- One source entry of the RAG response. -/
structure RagSource where
  title : String
  path : String
  score : Int
  chunk : String
deriving DecidableEq

/-- One JSON value in the response object. -/
inductive RVal where
  | str (v : String)
  | num (v : Nat)
  | srcs (v : List RagSource)
deriving DecidableEq

/-- A JSON response object: insertion-ordered fields. -/
abbrev RagResponse := List (String × RVal)

/-- The fixed system prompt of the RAG call. -/
def ragSystemPrompt : String :=
  "You are a helpful AI assistant that answers questions based on provided documents.\n\nRules:\n- Only use information from the documents provided\n- If documents don't contain the answer, say so clearly\n- Be concise and direct\n- Provide specific details when available"

/-- The labelled context block of one retrieved chunk,
`[Document N: title]\ncontent\n`. -/
def contextPart (idx : Nat) (r : RetrievedPoint) : String :=
  "[Document " ++ toString (idx + 1) ++ ": " ++ r.title ++ "]\n" ++ r.full_chunk ++ "\n"

/-- The user prompt assembled from the context and the query. -/
def ragUserPrompt (context query : String) : String :=
  "Based on these documents:\n\n" ++ context ++ "\n\nQuestion: " ++ query ++
    "\n\nProvide a clear answer based only on the documents above."

/-- The fixed fallback answer for an empty retrieval. -/
def ragFallbackAnswer : String :=
  "I couldn't find any relevant information to answer your question."

/-- `rag_query` from app.py: provider validation, then query embedding
and index retrieval, then either the zero-chunk fallback or context
assembly and one LLM call.  Returns the handler result together with
the trace of external effects. -/
def rag_query (env : RagEnv) (req : RAGRequest) :
    Except HTTPError RagResponse × List RagEvent :=
  if req.llm_provider ≠ "groq" ∧ req.llm_provider ≠ "claude" then
    (Except.error ⟨400, "llm_provider must be 'groq' or 'claude'"⟩, [])
  else if req.llm_provider = "groq" ∧ env.groqConfigured = false then
    (Except.error ⟨503, "Groq is not configured"⟩, [])
  else if req.llm_provider = "claude" ∧ env.anthropicConfigured = false then
    (Except.error ⟨503, "Claude is not configured"⟩, [])
  else
    let results := env.retrieved
    if results.isEmpty then
      (Except.ok [("answer", RVal.str ragFallbackAnswer),
        ("sources", RVal.srcs []),
        ("query", RVal.str req.query),
        ("llm_provider", RVal.str req.llm_provider)],
       [RagEvent.embedQuery, RagEvent.indexQuery])
    else
      let sources := results.map (fun r =>
        ⟨r.title, r.path, r.score,
          toString (r.chunk_index + 1) ++ "/" ++ toString r.total_chunks⟩)
      let context := String.intercalate "\n" (results.enum.map (fun p => contextPart p.1 p.2))
      let user_prompt := ragUserPrompt context req.query
      let answer := if req.llm_provider = "groq" then env.groqLlm ragSystemPrompt user_prompt
        else env.claudeLlm ragSystemPrompt user_prompt
      let model_used := if req.llm_provider = "groq" then "llama-3.3-70b-versatile"
        else "claude-sonnet-4-5-20250929"
      (Except.ok [("answer", RVal.str answer),
        ("sources", RVal.srcs sources),
        ("query", RVal.str req.query),
        ("chunks_used", RVal.num results.length),
        ("llm_provider", RVal.str req.llm_provider),
        ("model_used", RVal.str model_used)],
       [RagEvent.embedQuery, RagEvent.indexQuery, RagEvent.llmCall req.llm_provider])

/-- A concrete request naming the groq provider. -/
def reqGroq : RAGRequest := { query := "what is qhub", limit := 3, llm_provider := "groq" }

/-- A concrete environment whose retrieval returns no chunks. -/
def envNoHits : RagEnv :=
  { groqConfigured := true, anthropicConfigured := false, retrieved := [],
    groqLlm := fun _ _ => "LLM OUTPUT", claudeLlm := fun _ _ => "LLM OUTPUT" }


/-- C6 counterexample: with a configured provider and zero retrieved
chunks the handler succeeds, but the fallback response carries only
`answer`, `sources`, `query` and `llm_provider` — `chunks_used` and
`model_used` are absent, contradicting the claim that every successful
response has all six fields. -/
theorem rag_fallback_missing_fields :
    (rag_query envNoHits reqGroq).1 =
      Except.ok [("answer", RVal.str ragFallbackAnswer),
        ("sources", RVal.srcs []),
        ("query", RVal.str "what is qhub"),
        ("llm_provider", RVal.str "groq")] ∧
    "chunks_used" ∉ ((rag_query envNoHits reqGroq).1.toOption.getD []).map Prod.fst ∧
    "model_used" ∉ ((rag_query envNoHits reqGroq).1.toOption.getD []).map Prod.fst :=
  ⟨rfl, by decide, by decide⟩

/-- C6 (amended): every successful RAG response contains `answer`,
`sources`, `query` and `llm_provider`; when at least one chunk was
retrieved it additionally contains `chunks_used` and `model_used`, and
the zero-chunk fallback omits exactly those two fields. -/
theorem rag_response_fields (env : RagEnv) (req : RAGRequest)
    (resp : RagResponse) (events : List RagEvent)
    (h : rag_query env req = (Except.ok resp, events)) :
    "answer" ∈ resp.map Prod.fst ∧ "sources" ∈ resp.map Prod.fst ∧
    "query" ∈ resp.map Prod.fst ∧ "llm_provider" ∈ resp.map Prod.fst ∧
    (env.retrieved ≠ [] →
      "chunks_used" ∈ resp.map Prod.fst ∧ "model_used" ∈ resp.map Prod.fst) ∧
    (env.retrieved = [] →
      "chunks_used" ∉ resp.map Prod.fst ∧ "model_used" ∉ resp.map Prod.fst) := by
  simp only [rag_query] at h
  split_ifs at h with h1 h2 h3 h4 h5
  · exact absurd h (by simp)
  · exact absurd h (by simp)
  · exact absurd h (by simp)
  · simp only [Prod.mk.injEq] at h
    obtain ⟨hok, -⟩ := h
    injection hok with hr
    subst hr
    have hempty : env.retrieved = [] := by simpa [List.isEmpty_iff] using h4
    simp [hempty]
  all_goals
    simp only [Prod.mk.injEq] at h
    obtain ⟨hok, -⟩ := h
    injection hok with hr
    subst hr
    have hne : env.retrieved ≠ [] := by simpa [List.isEmpty_iff] using h4
    simp [hne]

/-- Witness for `rag_response_fields` at the concrete zero-hit
environment and groq request. -/
theorem rag_response_fields_witness :
    "answer" ∈ (([("answer", RVal.str ragFallbackAnswer),
        ("sources", RVal.srcs []),
        ("query", RVal.str "what is qhub"),
        ("llm_provider", RVal.str "groq")] : RagResponse)).map Prod.fst ∧
    "sources" ∈ (([("answer", RVal.str ragFallbackAnswer),
        ("sources", RVal.srcs []),
        ("query", RVal.str "what is qhub"),
        ("llm_provider", RVal.str "groq")] : RagResponse)).map Prod.fst ∧
    "query" ∈ (([("answer", RVal.str ragFallbackAnswer),
        ("sources", RVal.srcs []),
        ("query", RVal.str "what is qhub"),
        ("llm_provider", RVal.str "groq")] : RagResponse)).map Prod.fst ∧
    "llm_provider" ∈ (([("answer", RVal.str ragFallbackAnswer),
        ("sources", RVal.srcs []),
        ("query", RVal.str "what is qhub"),
        ("llm_provider", RVal.str "groq")] : RagResponse)).map Prod.fst ∧
    (envNoHits.retrieved ≠ [] →
      "chunks_used" ∈ (([("answer", RVal.str ragFallbackAnswer),
        ("sources", RVal.srcs []),
        ("query", RVal.str "what is qhub"),
        ("llm_provider", RVal.str "groq")] : RagResponse)).map Prod.fst ∧
      "model_used" ∈ (([("answer", RVal.str ragFallbackAnswer),
        ("sources", RVal.srcs []),
        ("query", RVal.str "what is qhub"),
        ("llm_provider", RVal.str "groq")] : RagResponse)).map Prod.fst) ∧
    (envNoHits.retrieved = [] →
      "chunks_used" ∉ (([("answer", RVal.str ragFallbackAnswer),
        ("sources", RVal.srcs []),
        ("query", RVal.str "what is qhub"),
        ("llm_provider", RVal.str "groq")] : RagResponse)).map Prod.fst ∧
      "model_used" ∉ (([("answer", RVal.str ragFallbackAnswer),
        ("sources", RVal.srcs []),
        ("query", RVal.str "what is qhub"),
        ("llm_provider", RVal.str "groq")] : RagResponse)).map Prod.fst) :=
  rag_response_fields envNoHits reqGroq
    [("answer", RVal.str ragFallbackAnswer),
      ("sources", RVal.srcs []),
      ("query", RVal.str "what is qhub"),
      ("llm_provider", RVal.str "groq")]
    [RagEvent.embedQuery, RagEvent.indexQuery] rfl

/-- C7: with a valid, configured provider and an empty retrieval, the
handler returns exactly the fixed fallback answer with an empty source
list, and the effect trace contains no LLM call. -/
theorem rag_empty_no_llm (env : RagEnv) (req : RAGRequest)
    (hconf : req.llm_provider = "groq" ∧ env.groqConfigured = true ∨
      req.llm_provider = "claude" ∧ env.anthropicConfigured = true)
    (hempty : env.retrieved = []) :
    rag_query env req =
      (Except.ok [("answer", RVal.str ragFallbackAnswer),
        ("sources", RVal.srcs []),
        ("query", RVal.str req.query),
        ("llm_provider", RVal.str req.llm_provider)],
       [RagEvent.embedQuery, RagEvent.indexQuery]) ∧
    ∀ p, RagEvent.llmCall p ∉ (rag_query env req).2 := by
  have heq : rag_query env req =
      (Except.ok [("answer", RVal.str ragFallbackAnswer),
        ("sources", RVal.srcs []),
        ("query", RVal.str req.query),
        ("llm_provider", RVal.str req.llm_provider)],
       [RagEvent.embedQuery, RagEvent.indexQuery]) := by
    rcases hconf with ⟨h1, h2⟩ | ⟨h1, h2⟩
    · simp [rag_query, h1, h2, hempty]
    · simp [rag_query, h1, h2, hempty]
  refine ⟨heq, ?_⟩
  intro p
  rw [heq]
  simp

/-- Witness for `rag_empty_no_llm` at the concrete zero-hit environment
and groq request. -/
theorem rag_empty_no_llm_witness :
    rag_query envNoHits reqGroq =
      (Except.ok [("answer", RVal.str ragFallbackAnswer),
        ("sources", RVal.srcs []),
        ("query", RVal.str reqGroq.query),
        ("llm_provider", RVal.str reqGroq.llm_provider)],
       [RagEvent.embedQuery, RagEvent.indexQuery]) ∧
    ∀ p, RagEvent.llmCall p ∉ (rag_query envNoHits reqGroq).2 :=
  rag_empty_no_llm envNoHits reqGroq (Or.inl ⟨rfl, rfl⟩) rfl

/-- C8: an unknown provider name is rejected with status 400 and an
unconfigured known provider with status 503; in both cases the effect
trace is empty — no query embedding, no index query, no LLM call, no
side effects at all. -/
theorem rag_invalid_provider_rejected (env : RagEnv) (req : RAGRequest)
    (h : req.llm_provider ≠ "groq" ∧ req.llm_provider ≠ "claude" ∨
      req.llm_provider = "groq" ∧ env.groqConfigured = false ∨
      req.llm_provider = "claude" ∧ env.anthropicConfigured = false) :
    (∃ err, rag_query env req = (Except.error err, []) ∧
      (req.llm_provider ≠ "groq" ∧ req.llm_provider ≠ "claude" → err.status = 400) ∧
      (req.llm_provider = "groq" ∨ req.llm_provider = "claude" → err.status = 503)) ∧
    RagEvent.embedQuery ∉ (rag_query env req).2 ∧
    RagEvent.indexQuery ∉ (rag_query env req).2 ∧
    ∀ p, RagEvent.llmCall p ∉ (rag_query env req).2 := by
  rcases h with ⟨h1, h2⟩ | ⟨h1, h2⟩ | ⟨h1, h2⟩
  · have heq : rag_query env req =
        (Except.error ⟨400, "llm_provider must be 'groq' or 'claude'"⟩, []) := by
      simp [rag_query, h1, h2]
    refine ⟨⟨_, heq, fun _ => rfl, ?_⟩, ?_, ?_, ?_⟩
    · rintro (hc | hc)
      · exact absurd hc h1
      · exact absurd hc h2
    all_goals rw [heq]; simp
  · have heq : rag_query env req =
        (Except.error ⟨503, "Groq is not configured"⟩, []) := by
      simp [rag_query, h1, h2]
    refine ⟨⟨_, heq, ?_, fun _ => rfl⟩, ?_, ?_, ?_⟩
    · rintro ⟨ha, -⟩
      exact absurd h1 ha
    all_goals rw [heq]; simp
  · have heq : rag_query env req =
        (Except.error ⟨503, "Claude is not configured"⟩, []) := by
      simp [rag_query, h1, h2]
    refine ⟨⟨_, heq, ?_, fun _ => rfl⟩, ?_, ?_, ?_⟩
    · rintro ⟨-, hb⟩
      exact absurd h1 hb
    all_goals rw [heq]; simp

/-- Witness for `rag_invalid_provider_rejected`: the provider name
`"openai"` is outside the enum. -/
theorem rag_invalid_provider_rejected_witness :
    (∃ err, rag_query envNoHits { query := "q", limit := 3, llm_provider := "openai" } =
        (Except.error err, []) ∧
      (({ query := "q", limit := 3, llm_provider := "openai" } : RAGRequest).llm_provider ≠ "groq" ∧
        ({ query := "q", limit := 3, llm_provider := "openai" } : RAGRequest).llm_provider ≠ "claude" →
          err.status = 400) ∧
      (({ query := "q", limit := 3, llm_provider := "openai" } : RAGRequest).llm_provider = "groq" ∨
        ({ query := "q", limit := 3, llm_provider := "openai" } : RAGRequest).llm_provider = "claude" →
          err.status = 503)) ∧
    RagEvent.embedQuery ∉
      (rag_query envNoHits { query := "q", limit := 3, llm_provider := "openai" }).2 ∧
    RagEvent.indexQuery ∉
      (rag_query envNoHits { query := "q", limit := 3, llm_provider := "openai" }).2 ∧
    ∀ p, RagEvent.llmCall p ∉
      (rag_query envNoHits { query := "q", limit := 3, llm_provider := "openai" }).2 :=
  rag_invalid_provider_rejected envNoHits
    { query := "q", limit := 3, llm_provider := "openai" }
    (Or.inl ⟨by decide, by decide⟩)

/-! ## Ingest endpoint (`ingest_document`, app.py lines 256-343)

The vector index is a list of stored points in insertion order; the
embedder is a fallible black-box function argument (`none` models a
raised exception).  The returned trace records every index mutation the
handler issues.  The delete branch is modelled exactly as written: one
`scroll` call with `limit=100` whose `next_page` cursor is discarded,
then one delete of the returned ids. -/

/-- The payload stored with each indexed point (app.py lines 314-325). -/
structure PointPayload where
  path : String
  repo : String
  commit : String
  title : String
  description : String
  tags : String
  chunk_index : Nat
  total_chunks : Nat
  content : String
  full_chunk : String
deriving DecidableEq

/-- One indexed record (`PointStruct`). -/
structure PointStruct where
  id : String
  vector : List Int
  payload : PointPayload
deriving DecidableEq

/-- The `/ingest` request body (`IngestPayload` in app.py). -/
structure IngestPayload where
  path : String
  repo : String
  commit : String
  deleted : Bool
  content : String
deriving DecidableEq

/-- The success body of `/ingest`: the delete branch reports the count
removed, the ingestion branch reports path, title, word count and chunk
count. -/
inductive IngestResult where
  | deletedResp (chunks_deleted : Nat)
  | ingestedResp (path title : String) (word_count chunks_created : Nat)
deriving DecidableEq

/-- One index mutation issued by the handler. -/
inductive IndexOp where
  | upsertOp (points : List PointStruct)
  | deleteOp (ids : List String)
deriving DecidableEq

/-- The scroll filter of the delete branch: exact match on both `path`
and `repo` payload fields. -/
def matchesFilter (repo path : String) (q : PointStruct) : Bool :=
  q.payload.path == path && q.payload.repo == repo

/-- One `scroll` call with `limit = 100`: the first hundred matching
records in storage order. -/
def scrollPage (db : List PointStruct) (repo path : String) : List PointStruct :=
  (db.filter (matchesFilter repo path)).take 100

/-- Delete by explicit id list (`PointIdsList`). -/
def deleteByIds (db : List PointStruct) (ids : List String) : List PointStruct :=
  db.filter (fun q => ! ids.contains q.id)

/-- The `deleted=true` branch of `ingest_document`: a single scroll page
(the `next_page` cursor is ignored by the source), then one delete of
those ids; an empty page deletes nothing.  Returns the new index, the
reported count, and the mutation trace. -/
def ingest_delete (db : List PointStruct) (repo path : String) :
    List PointStruct × Nat × List IndexOp :=
  let pointIds := (scrollPage db repo path).map (fun q => q.id)
  if pointIds.isEmpty then (db, 0, [])
  else (deleteByIds db pointIds, pointIds.length, [IndexOp.deleteOp pointIds])

/-- Python `dict.get(k, dflt)` on the frontmatter mapping. -/
def dictGet (m : List (String × String)) (k dflt : String) : String :=
  (m.lookup k).getD dflt

/-- Python's `chunk[:500]` character slice. -/
def pySlice500 (s : String) : String := String.mk (s.toList.take 500)

/-- Insert-or-replace one point by id. -/
def upsertOne (db : List PointStruct) (pt : PointStruct) : List PointStruct :=
  if db.any (fun q => q.id == pt.id) then
    db.map (fun q => if q.id == pt.id then pt else q)
  else db ++ [pt]

/-- `upsert`: insert-or-replace each given point by id. -/
def upsertPoints (db : List PointStruct) (pts : List PointStruct) : List PointStruct :=
  pts.foldl upsertOne db

/-- The point list built by the ingestion loop (app.py lines 309-330):
chunk `idx` is embedded and stored under `generate_point_id(path, repo,
idx)` with the payload of lines 314-325. -/
def buildPoints (pay : IngestPayload) (fm : List (String × String))
    (chunks : List String) (vecs : List (List Int)) : List PointStruct :=
  (chunks.zip vecs).enum.map (fun p =>
    { id := generate_point_id pay.path pay.repo p.1,
      vector := p.2.2,
      payload :=
        { path := pay.path, repo := pay.repo, commit := pay.commit,
          title := dictGet fm "title" "", description := dictGet fm "description" "",
          tags := dictGet fm "tags" "", chunk_index := p.1,
          total_chunks := chunks.length, content := pySlice500 p.2.1,
          full_chunk := p.2.1 } })

/-- The pure part of the ingestion branch: frontmatter extraction,
chunking, and the sequential embedding of every chunk.  `none` when the
chunking loop fails to finish or any single embedding raises — in the
source both surface as an exception before any index call. -/
def ingestOutcome (embed : String → Option (List Int)) (pay : IngestPayload) :
    Option (List PointStruct × IngestResult) :=
  let fmClean := extract_frontmatter pay.content
  let word_count := (pySplit fmClean.2).length
  match split_into_chunks fmClean.2 500 50 with
  | none => none
  | some chunks =>
    match chunks.mapM embed with
    | none => none
    | some vecs =>
      some (buildPoints pay fmClean.1 chunks vecs,
        IngestResult.ingestedResp pay.path (dictGet fmClean.1 "title" "N/A")
          word_count chunks.length)

/-- `ingest_document` from app.py: token check, then either the delete
branch or frontmatter/chunk/embed accumulation followed by one upsert.
Returns the handler result (new index state and response) and the
index-mutation trace. -/
def ingest_document (embed : String → Option (List Int)) (token : Option String)
    (secret : String) (pay : IngestPayload) (db : List PointStruct) :
    Except HTTPError (List PointStruct × IngestResult) × List IndexOp :=
  if token = none ∨ token = some "" ∨ token ≠ some secret then
    (Except.error ⟨401, "Invalid token"⟩, [])
  else if pay.deleted then
    let r := ingest_delete db pay.repo pay.path
    (Except.ok (r.1, IngestResult.deletedResp r.2.1), r.2.2)
  else
    match ingestOutcome embed pay with
    | none => (Except.error ⟨500, "Ingestion failed"⟩, [])
    | some pr => (Except.ok (upsertPoints db pr.1, pr.2), [IndexOp.upsertOp pr.1])

/-- A minimal stored payload for a given document key. -/
def basePayload (path repo : String) : PointPayload :=
  { path := path, repo := repo, commit := "", title := "", description := "",
    tags := "", chunk_index := 0, total_chunks := 0, content := "", full_chunk := "" }

/-- An index holding 101 records for the document `(repo="r",
path="p")`, one more than a scroll page. -/
def db101 : List PointStruct :=
  (List.range 101).map (fun i =>
    { id := toString i, vector := [], payload := basePayload "p" "r" })

/-- C1, evaluated at the failing input: with 101 matching records the
delete branch reports 100 removed and leaves one matching record behind
(the single scroll page is capped at 100 and the pagination cursor is
ignored), while deleting a document with zero records is still a
success reporting 0. -/
theorem ingest_delete_first_page_only :
    (db101.filter (matchesFilter "r" "p")).length = 101 ∧
    (ingest_delete db101 "r" "p").2.1 = 100 ∧
    ((ingest_delete db101 "r" "p").1.filter (matchesFilter "r" "p")).length = 1 ∧
    (ingest_document (fun _ => none) (some "s") "s"
      { path := "p", repo := "r", commit := "c", deleted := true, content := "" } []).1 =
      Except.ok ([], IngestResult.deletedResp 0) := by
  refine ⟨by decide, by decide, by decide, rfl⟩

/-- C10: on the non-delete path, every failure before the index call —
frontmatter extraction, chunking, any single chunk embedding — produces
an error with an empty index-mutation trace (the index is untouched),
and every success issues exactly one upsert carrying the full
accumulated point list, which is also exactly how the new index state
is produced. -/
theorem ingest_atomic (embed : String → Option (List Int)) (token : Option String)
    (secret : String) (pay : IngestPayload) (db : List PointStruct)
    (hdel : pay.deleted = false) :
    (∀ err, (ingest_document embed token secret pay db).1 = Except.error err →
      (ingest_document embed token secret pay db).2 = []) ∧
    (∀ res, (ingest_document embed token secret pay db).1 = Except.ok res →
      ∃ points, (ingest_document embed token secret pay db).2 = [IndexOp.upsertOp points] ∧
        res.1 = upsertPoints db points) := by
  by_cases hauth : token = none ∨ token = some "" ∨ token ≠ some secret
  · constructor
    · intro err h
      simp [ingest_document, hauth]
    · intro res h
      simp [ingest_document, hauth] at h
  · cases houtcome : ingestOutcome embed pay with
    | none =>
      constructor
      · intro err h
        simp [ingest_document, hauth, hdel, houtcome]
      · intro res h
        simp [ingest_document, hauth, hdel, houtcome] at h
    | some pr =>
      constructor
      · intro err h
        simp [ingest_document, hauth, hdel, houtcome] at h
      · intro res h
        refine ⟨pr.1, ?_, ?_⟩
        · simp [ingest_document, hauth, hdel, houtcome]
        · simp [ingest_document, hauth, hdel, houtcome] at h
          rw [← h]

/-- Witness for `ingest_atomic`: a two-word document ingested into an
empty index with an embedder that always succeeds. -/
theorem ingest_atomic_witness :
    ({ path := "d.md", repo := "w", commit := "c", deleted := false,
       content := "hello world" } : IngestPayload).deleted = false ∧
    ((∀ err, (ingest_document (fun _ => some [1]) (some "t") "t"
        { path := "d.md", repo := "w", commit := "c", deleted := false,
          content := "hello world" } []).1 = Except.error err →
      (ingest_document (fun _ => some [1]) (some "t") "t"
        { path := "d.md", repo := "w", commit := "c", deleted := false,
          content := "hello world" } []).2 = []) ∧
    (∀ res, (ingest_document (fun _ => some [1]) (some "t") "t"
        { path := "d.md", repo := "w", commit := "c", deleted := false,
          content := "hello world" } []).1 = Except.ok res →
      ∃ points, (ingest_document (fun _ => some [1]) (some "t") "t"
        { path := "d.md", repo := "w", commit := "c", deleted := false,
          content := "hello world" } []).2 = [IndexOp.upsertOp points] ∧
        res.1 = upsertPoints [] points)) :=
  ⟨rfl, ingest_atomic (fun _ => some [1]) (some "t") "t"
    { path := "d.md", repo := "w", commit := "c", deleted := false,
      content := "hello world" } [] rfl⟩
